import Mathlib

/-!
Verification of the TCO LOA cost-computation engine (src/tco_loa.py and
src/tco_loa_web.py) against its natural-language specification.

The Python code works on JSON-like dictionaries whose numeric fields are
floats accessed via `dict.get(key, default)`; a field that may be absent is
modelled as an `Option` and `get` with a default becomes `Option.getD`.
Floats are modelled as exact rationals (ℚ); `int` fields as ℤ.
A Python `KeyError` (direct `d[k]` access on a possibly missing key) is
modelled by an `Option`-valued function returning `none`.
-/

/-- Section `deal` of the configuration (fields of `DealParams` /
the keys read from the `deal` dict in src/tco_loa.py). -/
structure DealDict where
  monthly_rent : Option ℚ
  months : Option ℤ
  annual_km : Option ℚ
  upfront_costs : Option ℚ
  accessories_total : Option ℚ
  other_fixed_costs : Option ℚ
  charging_credits_total : Option ℚ
  restitution_fees : Option ℚ
  actual_annual_km : Option ℚ
  actual_total_km : Option ℚ
  excess_rate_eur_per_km : Option ℚ
  excess_free_km : Option ℚ

/-- Section `energy` of the configuration. -/
structure EnergyDict where
  kwh_per_100km : Option ℚ
  share_free : Option ℚ
  home_price_eur_per_kwh : Option ℚ
  public_price_eur_per_kwh : Option ℚ
  share_home_of_paid : Option ℚ

/-- Section `maintenance` of the configuration. -/
structure MaintenanceDict where
  maint_eur_per_year : Option ℚ
  tire_set_cost : Option ℚ
  tire_sets_included : Option ℤ
  expected_tire_sets_total : Option ℤ

/-- Section `insurance` of the configuration. -/
structure InsuranceDict where
  eur_per_month : Option ℚ

/-- Section `buyout` of the configuration. -/
structure BuyoutDict where
  enabled : Option Bool
  option_fee : Option ℚ
  residual_value : Option ℚ
  resale_value_after_buyout : Option ℚ

/-- Section `ik` (mileage indemnity) of the configuration. -/
structure IKDict where
  enabled : Option Bool
  vehicle_cv : Option ℤ
  is_electric : Option Bool
  km_per_day : Option ℚ
  company_cap_km_per_day : Option ℚ
  worked_days : Option ℚ
  days_is_annual : Option Bool
  annualize : Option Bool

/-- A configuration after `ensure_sections`: the six named sections are all
present (a missing section is the empty dict, i.e. all fields `none`). -/
structure Config where
  deal : DealDict
  energy : EnergyDict
  maintenance : MaintenanceDict
  insurance : InsuranceDict
  buyout : BuyoutDict
  ik : IKDict

/-- The empty `deal` dict. -/
def emptyDeal : DealDict :=
  ⟨none, none, none, none, none, none, none, none, none, none, none, none⟩

/-- The empty `energy` dict. -/
def emptyEnergy : EnergyDict := ⟨none, none, none, none, none⟩

/-- The empty `maintenance` dict. -/
def emptyMaintenance : MaintenanceDict := ⟨none, none, none, none⟩

/-- The empty `insurance` dict. -/
def emptyInsurance : InsuranceDict := ⟨none⟩

/-- The empty `buyout` dict. -/
def emptyBuyout : BuyoutDict := ⟨none, none, none, none⟩

/-- The empty `ik` dict. -/
def emptyIK : IKDict := ⟨none, none, none, none, none, none, none, none⟩

/-- A configuration whose six sections are present but empty. -/
def emptyConfig : Config :=
  ⟨emptyDeal, emptyEnergy, emptyMaintenance, emptyInsurance, emptyBuyout, emptyIK⟩

/-- `years_from_months` from src/tco_loa.py: `months / 12.0`. -/
def years_from_months (months : ℤ) : ℚ := (months : ℚ) / 12

/-- One row of the coefficient table of `k_amount_for_distance_km`. -/
structure Coeffs where
  a1 : ℚ
  a2a : ℚ
  a2b : ℚ
  a3 : ℚ

/-- The clamp `cv_key = 7 if cv >= 7 else max(1, int(cv))` from
`k_amount_for_distance_km` in src/tco_loa.py. -/
def cvKey (cv : ℤ) : ℤ := if 7 ≤ cv then 7 else max 1 cv

/-- The literal coefficient dict `coeffs` of `k_amount_for_distance_km`
(keys 1..7; `cvKey` only ever produces keys in that range, the final
branch is row 7). -/
def coeffsFor (k : ℤ) : Coeffs :=
  if k = 1 then ⟨0.529, 0.316, 1065, 0.370⟩
  else if k = 2 then ⟨0.529, 0.316, 1065, 0.370⟩
  else if k = 3 then ⟨0.529, 0.316, 1065, 0.370⟩
  else if k = 4 then ⟨0.606, 0.340, 1330, 0.407⟩
  else if k = 5 then ⟨0.636, 0.357, 1385, 0.427⟩
  else if k = 6 then ⟨0.665, 0.374, 1435, 0.447⟩
  else ⟨0.697, 0.394, 1517, 0.470⟩

/-- `k_amount_for_distance_km` from src/tco_loa.py: the 3-tier French
mileage-indemnity scale with the +20% electric-vehicle bonus. -/
def k_amount_for_distance_km (distance_km : ℚ) (cv : ℤ) (is_electric : Bool) : ℚ :=
  let d := max 0 distance_km
  let c := coeffsFor (cvKey cv)
  let amount :=
    if d ≤ 5000 then d * c.a1
    else if d ≤ 20000 then d * c.a2a + c.a2b
    else d * c.a3
  if is_electric then amount * 1.20 else amount

/-- `contract_total_km` from src/tco_loa.py:
`annual_km * (months / 12.0)` with defaults 15000 and 48. -/
def contract_total_km (deal : DealDict) : ℚ :=
  (deal.annual_km.getD 15000) * (((deal.months.getD 48 : ℤ) : ℚ) / 12)

/-- `actual_total_km_over_period` from src/tco_loa.py: `actual_total_km`
if provided (priority), else `actual_annual_km * (months / 12.0)`,
else `None`. -/
def actual_total_km_over_period (deal : DealDict) : Option ℚ :=
  match deal.actual_total_km with
  | some t => some t
  | none =>
    match deal.actual_annual_km with
    | some a => some (a * (((deal.months.getD 48 : ℤ) : ℚ) / 12))
    | none => none

/-- `compute_energy_cost` from src/tco_loa.py: energy priced on the
contractual km, with `share_free` and `share_home_of_paid` clamped
into [0,1]. -/
def compute_energy_cost (config : Config) : ℚ :=
  let total_km := contract_total_km config.deal
  let kwh_per_100 := config.energy.kwh_per_100km.getD 17
  let kwh_total := total_km * (kwh_per_100 / 100)
  let share_free := min (max (config.energy.share_free.getD 0) 0) 1
  let paid_kwh := kwh_total * (1 - share_free)
  let share_home_paid := min (max (config.energy.share_home_of_paid.getD 1) 0) 1
  let home_kwh := paid_kwh * share_home_paid
  let public_kwh := paid_kwh - home_kwh
  let home_price := config.energy.home_price_eur_per_kwh.getD 0.23
  let public_price := config.energy.public_price_eur_per_kwh.getD 0.45
  home_kwh * home_price + public_kwh * public_price

/-- `compute_maintenance_cost` from src/tco_loa.py. -/
def compute_maintenance_cost (config : Config) : ℚ :=
  let months := config.deal.months.getD 48
  let years := years_from_months months
  let maint_year := config.maintenance.maint_eur_per_year.getD 200
  maint_year * years

/-- `compute_tires_cost` from src/tco_loa.py: only the shortfall beyond
the included tire sets is charged. -/
def compute_tires_cost (config : Config) : ℚ :=
  let tire_cost := config.maintenance.tire_set_cost.getD 700
  let included := config.maintenance.tire_sets_included.getD 0
  let expected := config.maintenance.expected_tire_sets_total.getD 0
  let extra := max 0 (expected - included)
  (extra : ℚ) * tire_cost

/-- `compute_insurance_cost` from src/tco_loa.py (the `get` default for
`eur_per_month` in this function is 0.0). -/
def compute_insurance_cost (config : Config) : ℚ :=
  let months := config.deal.months.getD 48
  let per_month := config.insurance.eur_per_month.getD 0
  per_month * (months : ℚ)

/-- `compute_excess_mileage_penalty` from src/tco_loa.py:
`over_km = max(0, actual_total - contract_total - franchise)`,
`penalty = over_km * excess_rate`; 0 when no actual mileage is given;
rate and franchise clamped to ≥ 0. -/
def compute_excess_mileage_penalty (config : Config) : ℚ :=
  let deal := config.deal
  let contract_km := contract_total_km deal
  match actual_total_km_over_period deal with
  | none => 0
  | some actual_km =>
    let rate := max 0 (deal.excess_rate_eur_per_km.getD 0)
    let free_km := max 0 (deal.excess_free_km.getD 0)
    let over_km := max 0 (actual_km - contract_km - free_km)
    over_km * rate

/-- The per-day eligible km of `compute_ik_amount_total`:
`min(km_per_day, company_cap) if company_cap > 0 else km_per_day`. -/
def ik_per_day_elig (ik : IKDict) : ℚ :=
  let km_per_day := ik.km_per_day.getD 0
  let company_cap := ik.company_cap_km_per_day.getD 0
  if 0 < company_cap then min km_per_day company_cap else km_per_day

/-- The total worked days of `compute_ik_amount_total`: scaled by
`months / 12` when `days_is_annual` (default true). -/
def ik_worked_days_total (ik : IKDict) (months : ℤ) : ℚ :=
  let worked_days_input := ik.worked_days.getD 0
  if ik.days_is_annual.getD true then worked_days_input * ((months : ℚ) / 12)
  else worked_days_input

/-- `total_km_elig` of `compute_ik_amount_total`. -/
def ik_total_eligible_km (ik : IKDict) (months : ℤ) : ℚ :=
  ik_per_day_elig ik * ik_worked_days_total ik months

/-- `compute_ik_amount_total` from src/tco_loa.py.  The function reads
`config["deal"]["months"]` directly (no default): when `ik.enabled` is
true and `deal.months` is absent the Python code raises a `KeyError`,
modelled here as `none`. -/
def compute_ik_amount_total (config : Config) : Option ℚ :=
  if config.ik.enabled.getD false = false then some 0
  else
    match config.deal.months with
    | none => none
    | some months =>
      let total_km_elig := ik_total_eligible_km config.ik months
      if total_km_elig ≤ 0 then some 0
      else
        let cv := config.ik.vehicle_cv.getD 5
        let is_ev := config.ik.is_electric.getD true
        let years := max ((months : ℚ) / 12) 1e-9
        if config.ik.annualize.getD true then
          some (k_amount_for_distance_km (total_km_elig / years) cv is_ev * years)
        else
          some (k_amount_for_distance_km total_km_elig cv is_ev)

/-- The row list built by `main` in src/tco_loa.py for a given
`ik_total`: the 11 common rows followed by the restitution block when
`buyout.enabled` is false, else the buyout block. -/
def scenario_rows (config : Config) (ik_total : ℚ) : List (String × ℚ) :=
  let deal := config.deal
  let months := deal.months.getD 48
  let credits := deal.charging_credits_total.getD 0
  [("Loyers LOA", deal.monthly_rent.getD 0 * (months : ℚ)),
   ("Énergie (électricité)", compute_energy_cost config),
   ("Entretien", compute_maintenance_cost config),
   ("Pneus", compute_tires_cost config),
   ("Assurance", compute_insurance_cost config),
   ("Immat/MISE EN MAIN", deal.upfront_costs.getD 0),
   ("Accessoires", deal.accessories_total.getD 0),
   ("Divers fixes", deal.other_fixed_costs.getD 0),
   ("Crédits recharge (déduits)", if credits ≠ 0 then -|credits| else 0),
   ("Dépassement kilométrique (pénalité)", compute_excess_mileage_penalty config),
   ("Indemnités kilométriques (déduites)", -ik_total)] ++
  (if config.buyout.enabled.getD false = false then
    [("Frais de restitution", deal.restitution_fees.getD 0),
     ("Frais d’option d’achat", 0),
     ("Valeur de rachat (VR)", 0),
     ("Revente (déduite)", 0)]
  else
    [("Frais de restitution", 0),
     ("Frais d’option d’achat", config.buyout.option_fee.getD 0),
     ("Valeur de rachat (VR)", config.buyout.residual_value.getD 0),
     ("Revente (déduite)",
       match config.buyout.resale_value_after_buyout with
       | some resale => -resale
       | none => 0)])

/-- The scenario row list of `main` in src/tco_loa.py; `none` models the
`KeyError` raised by `compute_ik_amount_total` (see there). -/
def build_rows (config : Config) : Option (List (String × ℚ)) :=
  (compute_ik_amount_total config).map (scenario_rows config)

/-- Modelled from the spec: `tco_cumulatif_par_mois` is imported by the
front-end src/tco_loa_web.py from the `tco_loa` module but is absent from
src/tco_loa.py.  Per spec §4.4 it produces a sequence of length `months`
whose entry `i` (1-indexed) is the cumulative sum of all category totals
prorated linearly up to month `i` (each category's full-period total
divided by `months` and accumulated). -/
def tco_cumulatif_par_mois (config : Config) : Option (List ℚ) :=
  (build_rows config).map (fun rows =>
    let months : ℤ := config.deal.months.getD 48
    let per_month := (rows.map (fun r => r.2 / (months : ℚ))).sum
    (List.range months.toNat).map (fun i : ℕ => per_month * ((i : ℚ) + 1)))

/-- The Mileage-Indemnity Scale as worded by the spec (§4.1): distance
clamped to ≥ 0, fiscal power clamped into the inclusive range [1,7],
three tiers `d ≤ 5000 → d*a1`, `5000 < d ≤ 20000 → d*a2a + a2b`,
`d > 20000 → d*a3`, then the flat +20% electric bonus applied after
tiering.  Stated for comparison with `k_amount_for_distance_km`. -/
def k_amount_spec (distance_km : ℚ) (cv : ℤ) (is_electric : Bool) : ℚ :=
  let d := max 0 distance_km
  let c := coeffsFor (min 7 (max 1 cv))
  let amount :=
    if d ≤ 5000 then d * c.a1
    else if 5000 < d ∧ d ≤ 20000 then d * c.a2a + c.a2b
    else d * c.a3
  if is_electric then amount * 1.20 else amount

/-- The energy total as worded by the spec (§4.2): contractual km times
consumption, split free/paid by `share_free`, the paid part split
home/public by `share_home_of_paid` (both clamped into [0,1]), each part
priced at its tariff.  Stated for comparison with `compute_energy_cost`. -/
def compute_energy_cost_spec (config : Config) : ℚ :=
  let contractual_km :=
    config.deal.annual_km.getD 15000 * (((config.deal.months.getD 48 : ℤ) : ℚ) / 12)
  let kwh_total := contractual_km * (config.energy.kwh_per_100km.getD 17 / 100)
  let share_free := min (max (config.energy.share_free.getD 0) 0) 1
  let share_home := min (max (config.energy.share_home_of_paid.getD 1) 0) 1
  let paid_kwh := kwh_total * (1 - share_free)
  let home_kwh := paid_kwh * share_home
  let public_kwh := paid_kwh * (1 - share_home)
  home_kwh * config.energy.home_price_eur_per_kwh.getD 0.23 +
    public_kwh * config.energy.public_price_eur_per_kwh.getD 0.45

/-- A configuration with every field present and equal to 0 (booleans
false): the "all-zero configuration" of the spec (§7). -/
def zeroConfig : Config :=
  ⟨⟨some 0, some 0, some 0, some 0, some 0, some 0, some 0, some 0, some 0, some 0,
    some 0, some 0⟩,
   ⟨some 0, some 0, some 0, some 0, some 0⟩,
   ⟨some 0, some 0, some 0, some 0⟩,
   ⟨some 0⟩,
   ⟨some false, some 0, some 0, some 0⟩,
   ⟨some false, some 0, some false, some 0, some 0, some 0, some false, some false⟩⟩

/-- Six sections present, `ik.enabled` set to true, everything else
absent (in particular `deal.months`). -/
def cfg3_bad : Config :=
  { emptyConfig with ik := { emptyIK with enabled := some true } }

/-- The precedence example of the spec: months=48, annual_km=15000,
actual_annual_km=20000, actual_total_km=70000, with a 2 €/km penalty
rate and a 1000 km franchise. -/
def cfg6 : Config :=
  { emptyConfig with
    deal := { emptyDeal with
      months := some 48, annual_km := some 15000,
      actual_annual_km := some 20000, actual_total_km := some 70000,
      excess_rate_eur_per_km := some 2, excess_free_km := some 1000 } }

/-- An annualized IK example: 24 months, 100 km/day, 200 worked days per
year, no cap, defaults elsewhere (5 CV, electric, annualize). -/
def cfg7 : Config :=
  { emptyConfig with
    deal := { emptyDeal with months := some 24 },
    ik := { emptyIK with
      enabled := some true, km_per_day := some 100, worked_days := some 200 } }

/-- The end-to-end energy example of the spec: months=48,
monthly_rent=350, annual_km=15000, kwh_per_100km=17, share_free=0,
share_home_of_paid=1, home_price=0.23. -/
def cfg8 : Config :=
  { emptyConfig with
    deal := { emptyDeal with
      months := some 48, monthly_rent := some 350, annual_km := some 15000 },
    energy := ⟨some 17, some 0, some 0.23, some 0.45, some 1⟩ }

/-- A buyout-enabled configuration (option fee 500, residual value 9000,
resale 8000) whose other rows are all zero. -/
def cfg9 : Config :=
  { emptyConfig with
    deal := { emptyDeal with annual_km := some 0 },
    maintenance := { emptyMaintenance with maint_eur_per_year := some 0 },
    buyout := { emptyBuyout with
      enabled := some true, option_fee := some 500,
      residual_value := some 9000, resale_value_after_buyout := some 8000 } }

/-- The row list `main` builds for `cfg9`. -/
def rows9 : List (String × ℚ) :=
  [("Loyers LOA", 0), ("Énergie (électricité)", 0), ("Entretien", 0), ("Pneus", 0),
   ("Assurance", 0), ("Immat/MISE EN MAIN", 0), ("Accessoires", 0), ("Divers fixes", 0),
   ("Crédits recharge (déduits)", 0), ("Dépassement kilométrique (pénalité)", 0),
   ("Indemnités kilométriques (déduites)", 0),
   ("Frais de restitution", 0), ("Frais d’option d’achat", 500),
   ("Valeur de rachat (VR)", 9000), ("Revente (déduite)", -8000)]

/-- A configuration with a negative `charging_credits_total` (-50) whose
other rows are all zero. -/
def cfg10 : Config :=
  { emptyConfig with
    deal := { emptyDeal with
      annual_km := some 0, charging_credits_total := some (-50) },
    maintenance := { emptyMaintenance with maint_eur_per_year := some 0 } }

/-- The row list `main` builds for `cfg10`. -/
def rows10 : List (String × ℚ) :=
  [("Loyers LOA", 0), ("Énergie (électricité)", 0), ("Entretien", 0), ("Pneus", 0),
   ("Assurance", 0), ("Immat/MISE EN MAIN", 0), ("Accessoires", 0), ("Divers fixes", 0),
   ("Crédits recharge (déduits)", -50), ("Dépassement kilométrique (pénalité)", 0),
   ("Indemnités kilométriques (déduites)", 0),
   ("Frais de restitution", 0), ("Frais d’option d’achat", 0),
   ("Valeur de rachat (VR)", 0), ("Revente (déduite)", 0)]

/-- A one-month configuration whose category totals are all zero. -/
def cfg2 : Config :=
  { emptyConfig with
    deal := { emptyDeal with months := some 1, annual_km := some 0 },
    maintenance := { emptyMaintenance with maint_eur_per_year := some 0 } }

/-- The row list `main` builds for `cfg2`. -/
def rows2 : List (String × ℚ) :=
  [("Loyers LOA", 0), ("Énergie (électricité)", 0), ("Entretien", 0), ("Pneus", 0),
   ("Assurance", 0), ("Immat/MISE EN MAIN", 0), ("Accessoires", 0), ("Divers fixes", 0),
   ("Crédits recharge (déduits)", 0), ("Dépassement kilométrique (pénalité)", 0),
   ("Indemnités kilométriques (déduites)", 0),
   ("Frais de restitution", 0), ("Frais d’option d’achat", 0),
   ("Valeur de rachat (VR)", 0), ("Revente (déduite)", 0)]

/-- Every row of the coefficient table has positive coefficients. -/
theorem coeffsFor_pos (k : ℤ) :
    0 < (coeffsFor k).a1 ∧ 0 < (coeffsFor k).a2a ∧ 0 < (coeffsFor k).a2b ∧
      0 < (coeffsFor k).a3 := by
  unfold coeffsFor
  split_ifs <;> exact ⟨by norm_num, by norm_num, by norm_num, by norm_num⟩

/-- Evaluation of the row builder on `cfg2`. -/
theorem build_rows_cfg2 : build_rows cfg2 = some rows2 := by
  simp [build_rows, compute_ik_amount_total, cfg2, emptyConfig, emptyIK, emptyDeal,
    emptyEnergy, emptyMaintenance, emptyInsurance, emptyBuyout, scenario_rows, rows2,
    compute_energy_cost, compute_maintenance_cost, compute_tires_cost,
    compute_insurance_cost, compute_excess_mileage_penalty, contract_total_km,
    actual_total_km_over_period, years_from_months]

/-- Evaluation of the row builder on `cfg9`. -/
theorem build_rows_cfg9 : build_rows cfg9 = some rows9 := by
  simp [build_rows, compute_ik_amount_total, cfg9, emptyConfig, emptyIK, emptyDeal,
    emptyEnergy, emptyMaintenance, emptyInsurance, emptyBuyout, scenario_rows, rows9,
    compute_energy_cost, compute_maintenance_cost, compute_tires_cost,
    compute_insurance_cost, compute_excess_mileage_penalty, contract_total_km,
    actual_total_km_over_period, years_from_months]

/-- Evaluation of the row builder on `cfg10`. -/
theorem build_rows_cfg10 : build_rows cfg10 = some rows10 := by
  simp [build_rows, compute_ik_amount_total, cfg10, emptyConfig, emptyIK, emptyDeal,
    emptyEnergy, emptyMaintenance, emptyInsurance, emptyBuyout, scenario_rows, rows10,
    compute_energy_cost, compute_maintenance_cost, compute_tires_cost,
    compute_insurance_cost, compute_excess_mileage_penalty, contract_total_km,
    actual_total_km_over_period, years_from_months]

/-- Claim C1: for every distance, fiscal power and electric flag, the
mileage indemnity equals the 3-tier piecewise formula over the clamped
distance `max 0 d` and the coefficient row for `cv` clamped into [1,7]
(rows 1-3 identical); `indemnity(5000,5,false) = 5000*0.636 = 3180` and
`indemnity(5001,5,false) = 5001*0.357 + 1385`; the result is always
non-negative. -/
theorem C1_mileage_indemnity_scale :
    (∀ (d : ℚ) (cv : ℤ) (e : Bool),
      k_amount_for_distance_km d cv e = k_amount_spec d cv e) ∧
    coeffsFor 1 = coeffsFor 2 ∧ coeffsFor 2 = coeffsFor 3 ∧
    k_amount_for_distance_km 5000 5 false = 5000 * 0.636 ∧
    k_amount_for_distance_km 5000 5 false = 3180 ∧
    k_amount_for_distance_km 5001 5 false = 5001 * 0.357 + 1385 ∧
    (∀ (d : ℚ) (cv : ℤ) (e : Bool), 0 ≤ k_amount_for_distance_km d cv e) := by
  refine ⟨?_, by norm_num [coeffsFor], by norm_num [coeffsFor],
    by norm_num [k_amount_for_distance_km, cvKey, coeffsFor],
    by norm_num [k_amount_for_distance_km, cvKey, coeffsFor],
    by norm_num [k_amount_for_distance_km, cvKey, coeffsFor], ?_⟩
  · intro d cv e
    have hkey : cvKey cv = min 7 (max 1 cv) := by
      unfold cvKey; split_ifs with h <;> omega
    by_cases h1 : max 0 d ≤ 5000
    · simp [k_amount_for_distance_km, k_amount_spec, hkey, h1]
    · by_cases h2 : max 0 d ≤ 20000
      · simp [k_amount_for_distance_km, k_amount_spec, hkey, h1, h2, not_le.mp h1]
      · simp [k_amount_for_distance_km, k_amount_spec, hkey, h1, h2]
  · intro d cv e
    obtain ⟨p1, p2a, p2b, p3⟩ := coeffsFor_pos (cvKey cv)
    have hd : (0 : ℚ) ≤ max 0 d := le_max_left 0 d
    simp only [k_amount_for_distance_km]
    have hbase : 0 ≤ (if max 0 d ≤ 5000 then max 0 d * (coeffsFor (cvKey cv)).a1
        else if max 0 d ≤ 20000 then
          max 0 d * (coeffsFor (cvKey cv)).a2a + (coeffsFor (cvKey cv)).a2b
        else max 0 d * (coeffsFor (cvKey cv)).a3) := by
      split_ifs
      · exact mul_nonneg hd p1.le
      · exact add_nonneg (mul_nonneg hd p2a.le) p2b.le
      · exact mul_nonneg hd p3.le
    cases e
    · simpa using hbase
    · have h12 : (0 : ℚ) ≤ 1.20 := by norm_num
      simpa using mul_nonneg hbase h12

/-- Claim C2 (spec-modelled: `tco_cumulatif_par_mois` is absent from
src/): for every configuration whose rows are built, the monthly
cumulative series has length exactly `months`, entry `i` is the
cumulative sum of the category totals each divided by `months` and
accumulated `i+1` times, the series is non-decreasing when all category
totals are non-negative, and its last element equals the scenario
total. -/
theorem C2_monthly_cumulative_series :
    ∀ (config : Config) (rows : List (String × ℚ)) (m : ℤ),
      build_rows config = some rows →
      config.deal.months.getD 48 = m →
      0 < m →
      ∃ s : List ℚ,
        tco_cumulatif_par_mois config = some s ∧
        s.length = m.toNat ∧
        (∀ i : ℕ, i < m.toNat →
          s[i]? = some ((rows.map (fun r => r.2 / (m : ℚ))).sum * ((i : ℚ) + 1))) ∧
        ((∀ r ∈ rows, (0 : ℚ) ≤ r.2) → s.Pairwise (· ≤ ·)) ∧
        s.getLast? = some ((rows.map Prod.snd).sum) := by
  intro config rows m hb hm hpos
  have htco : tco_cumulatif_par_mois config =
      some ((List.range m.toNat).map
        (fun i : ℕ => (rows.map (fun r => r.2 / (m : ℚ))).sum * ((i : ℚ) + 1))) := by
    simp only [tco_cumulatif_par_mois, hb, Option.map_some']
    rw [hm]
  have hmq : (0 : ℚ) < (m : ℚ) := by exact_mod_cast hpos
  have hsum : (rows.map (fun r => r.2 / (m : ℚ))).sum
      = (rows.map Prod.snd).sum / (m : ℚ) := by
    clear hb htco
    induction rows with
    | nil => simp
    | cons a l ih => simp [ih, add_div]
  refine ⟨_, htco, ?_, ?_, ?_, ?_⟩
  · simp
  · intro i hi
    simp [List.getElem?_map, List.getElem?_range hi]
  · intro hr
    have hp : 0 ≤ (rows.map (fun r => r.2 / (m : ℚ))).sum := by
      apply List.sum_nonneg
      intro x hx
      obtain ⟨r, hrmem, rfl⟩ := List.mem_map.mp hx
      exact div_nonneg (hr r hrmem) hmq.le
    rw [List.pairwise_map]
    refine List.Pairwise.imp ?_ (List.pairwise_lt_range _)
    intro a b hab
    have hcast : ((a : ℚ) + 1) ≤ ((b : ℚ) + 1) := by
      have : (a : ℚ) ≤ (b : ℚ) := by exact_mod_cast hab.le
      linarith
    exact mul_le_mul_of_nonneg_left hcast hp
  · have hn : 0 < m.toNat := by omega
    rw [List.getLast?_eq_getElem?]
    have hlen : ((List.range m.toNat).map
        (fun i : ℕ => (rows.map (fun r => r.2 / (m : ℚ))).sum * ((i : ℚ) + 1))).length
        = m.toNat := by
      simp
    rw [hlen]
    have hidx : m.toNat - 1 < m.toNat := by omega
    rw [List.getElem?_map, List.getElem?_range hidx]
    simp only [Option.map_some']
    congr 1
    rw [hsum]
    have hcast : ((m.toNat - 1 : ℕ) : ℚ) + 1 = (m : ℚ) := by
      have h1 : ((m.toNat - 1 : ℕ) : ℚ) = (m.toNat : ℚ) - 1 := by
        push_cast [Nat.cast_sub hn]
        norm_num
      rw [h1]
      have h2 : ((m.toNat : ℕ) : ℚ) = (m : ℚ) := by
        rw [← Int.cast_natCast]
        congr 1
        omega
      rw [h2]; ring
    rw [hcast]
    field_simp

/-- Witness for C2 at the concrete configuration `cfg2` (months = 1,
all category totals 0). -/
theorem C2_monthly_cumulative_series_witness :
    ∃ s : List ℚ, tco_cumulatif_par_mois cfg2 = some s ∧ s.length = 1 ∧
      s.getLast? = some 0 := by
  obtain ⟨s, h1, h2, h3, h4, h5⟩ :=
    C2_monthly_cumulative_series cfg2 rows2 1 build_rows_cfg2 rfl one_pos
  refine ⟨s, h1, by simpa using h2, ?_⟩
  rw [h5]
  norm_num [rows2]

/-- Claim C3 counterexample: with the six sections present,
`ik.enabled = true` and `deal.months` absent, the mileage-indemnity
calculator raises a `KeyError` (modelled as `none`) instead of
returning a well-defined total. -/
theorem C3_ik_missing_months_counterexample :
    compute_ik_amount_total cfg3_bad = none := rfl

/-- Claim C3 (amended): every calculator except the mileage-indemnity
total is a total function by construction; the mileage-indemnity total
is well-defined whenever `ik` is disabled or `deal.months` is present;
an all-zero configuration yields 0 from every calculator. -/
theorem C3_calculators_totality_amended :
    (∀ config : Config, config.ik.enabled.getD false = false →
      compute_ik_amount_total config = some 0) ∧
    (∀ (config : Config) (m : ℤ), config.deal.months = some m →
      (compute_ik_amount_total config).isSome = true) ∧
    compute_energy_cost zeroConfig = 0 ∧
    compute_maintenance_cost zeroConfig = 0 ∧
    compute_tires_cost zeroConfig = 0 ∧
    compute_insurance_cost zeroConfig = 0 ∧
    compute_excess_mileage_penalty zeroConfig = 0 ∧
    compute_ik_amount_total zeroConfig = some 0 := by
  refine ⟨?_, ?_, ?_, ?_, ?_, ?_, ?_, rfl⟩
  · intro config h
    simp [compute_ik_amount_total, h]
  · intro config m hm
    by_cases he : config.ik.enabled.getD false = false
    · simp [compute_ik_amount_total, he]
    · simp only [compute_ik_amount_total, he, hm]
      norm_num
      split_ifs <;> simp
  · norm_num [compute_energy_cost, contract_total_km, zeroConfig]
  · norm_num [compute_maintenance_cost, years_from_months, zeroConfig]
  · norm_num [compute_tires_cost, zeroConfig]
  · norm_num [compute_insurance_cost, zeroConfig]
  · norm_num [compute_excess_mileage_penalty, actual_total_km_over_period,
      contract_total_km, zeroConfig]

/-- Witness for C3 (amended) at the all-empty configuration (ik
disabled by default). -/
theorem C3_calculators_totality_amended_witness :
    compute_ik_amount_total emptyConfig = some 0 :=
  C3_calculators_totality_amended.1 emptyConfig rfl

/-- Claim C4 (the code contradicts it): the non-electric indemnity is
NOT non-decreasing across the 5000 km boundary for 5 CV:
`indemnity(5000,5,false) = 3180` but `indemnity(5001,5,false) =
3170.357`, a drop, because row 5 of the code's table has
`a2b = 1385` where the official 2024/2025 scale (which the function's
docstring claims to implement) has 1395. -/
theorem C4_indemnity_drop_at_boundary :
    k_amount_for_distance_km 5000 5 false = 3180 ∧
    k_amount_for_distance_km 5001 5 false = 3170.357 ∧
    k_amount_for_distance_km 5001 5 false < k_amount_for_distance_km 5000 5 false := by
  norm_num [k_amount_for_distance_km, cvKey, coeffsFor]

/-- Claim C5: the electric indemnity equals the non-electric one
multiplied by 1.20, i.e. the flat 20% electric bonus is applied
multiplicatively after the tier computation. -/
theorem C5_electric_bonus :
    ∀ (d : ℚ) (cv : ℤ),
      k_amount_for_distance_km d cv true
        = k_amount_for_distance_km d cv false * 1.20 := by
  intro d cv
  simp [k_amount_for_distance_km]

/-- Claim C6: the excess-mileage penalty equals
`max(0, actual - contract - franchise) * rate` with rate and franchise
clamped to ≥ 0, `contract = annual_km * months/12`, actual taken from
`actual_total_km` when present (precedence) else derived from
`actual_annual_km`, and the penalty is 0 whenever neither actual field
is set; on the spec's example deal the actual used is 70000, not
80000. -/
theorem C6_excess_penalty :
    (∀ config : Config,
      (contract_total_km config.deal =
        config.deal.annual_km.getD 15000 * (((config.deal.months.getD 48 : ℤ) : ℚ) / 12)) ∧
      (∀ x : ℚ, config.deal.actual_total_km = some x →
        actual_total_km_over_period config.deal = some x) ∧
      (∀ a : ℚ, config.deal.actual_total_km = none →
        config.deal.actual_annual_km = some a →
        actual_total_km_over_period config.deal =
          some (a * (((config.deal.months.getD 48 : ℤ) : ℚ) / 12))) ∧
      (config.deal.actual_total_km = none → config.deal.actual_annual_km = none →
        compute_excess_mileage_penalty config = 0) ∧
      (∀ a : ℚ, actual_total_km_over_period config.deal = some a →
        compute_excess_mileage_penalty config =
          max 0 (a - contract_total_km config.deal
              - max 0 (config.deal.excess_free_km.getD 0)) *
            max 0 (config.deal.excess_rate_eur_per_km.getD 0))) ∧
    actual_total_km_over_period cfg6.deal = some 70000 := by
  refine ⟨?_, rfl⟩
  intro config
  refine ⟨rfl, ?_, ?_, ?_, ?_⟩
  · intro x hx
    simp [actual_total_km_over_period, hx]
  · intro a h1 h2
    simp [actual_total_km_over_period, h1, h2]
  · intro h1 h2
    simp [compute_excess_mileage_penalty, actual_total_km_over_period, h1, h2]
  · intro a ha
    simp [compute_excess_mileage_penalty, ha]

/-- Witness for C6 at the configuration `cfg6`:
`max(0, 70000 - 60000 - 1000) * 2 = 18000`. -/
theorem C6_excess_penalty_witness :
    compute_excess_mileage_penalty cfg6 = 18000 := by
  have h := ((C6_excess_penalty.1 cfg6).2.2.2.2) 70000 rfl
  rw [h]
  norm_num [contract_total_km, cfg6, emptyConfig, emptyDeal, max_def]

/-- Claim C7: with ik enabled, annualize on and positive total eligible
km, the mileage-indemnity total equals
`years * indemnity(total_eligible_km / years, cv, is_electric)` with
`years = max(months/12, 1e-9)` — one annual scale application linearly
rescaled. -/
theorem C7_ik_annualized :
    ∀ (config : Config) (m : ℤ),
      config.deal.months = some m →
      config.ik.enabled.getD false = true →
      config.ik.annualize.getD true = true →
      0 < ik_total_eligible_km config.ik m →
      compute_ik_amount_total config =
        some (max ((m : ℚ) / 12) 1e-9 *
          k_amount_for_distance_km
            (ik_total_eligible_km config.ik m / max ((m : ℚ) / 12) 1e-9)
            (config.ik.vehicle_cv.getD 5) (config.ik.is_electric.getD true)) := by
  intro config m hm he ha hpos
  simp only [compute_ik_amount_total, he, hm]
  norm_num
  rw [if_neg (not_le.mpr hpos), if_pos ha]
  rw [mul_comm]

/-- Witness for C7 at the configuration `cfg7`: 24 months, 40000 km
eligible over the period, annualized to 20000 km/year: yearly amount
`(20000*0.357 + 1385) * 1.2 = 10230`, total `2 * 10230 = 20460`. -/
theorem C7_ik_annualized_witness :
    compute_ik_amount_total cfg7 = some 20460 := by
  have hpos : 0 < ik_total_eligible_km cfg7.ik 24 := by
    norm_num [ik_total_eligible_km, ik_per_day_elig, ik_worked_days_total,
      cfg7, emptyIK, emptyConfig]
  have h := C7_ik_annualized cfg7 24 rfl rfl rfl hpos
  rw [h]
  norm_num [ik_total_eligible_km, ik_per_day_elig, ik_worked_days_total,
    k_amount_for_distance_km, cvKey, coeffsFor, cfg7, emptyIK, emptyConfig,
    emptyDeal, max_def]

/-- Claim C8: the energy total is computed on contractual kilometres
(total kWh split free/paid by `share_free` and the paid part home/public
by `share_home_of_paid`, both clamped into [0,1]), never on actual
kilometres, and the spec's example gives 2346.00. -/
theorem C8_energy_contractual :
    (∀ config : Config, compute_energy_cost config = compute_energy_cost_spec config) ∧
    (∀ (config : Config) (a b : Option ℚ),
      compute_energy_cost
        { config with
          deal := { config.deal with actual_annual_km := a, actual_total_km := b } } =
      compute_energy_cost config) ∧
    compute_energy_cost cfg8 = 2346 := by
  refine ⟨?_, fun config a b => rfl, ?_⟩
  · intro config
    simp only [compute_energy_cost, compute_energy_cost_spec, contract_total_km]
    ring
  · norm_num [compute_energy_cost, contract_total_km, cfg8, emptyConfig,
      emptyDeal, emptyEnergy]

/-- Claim C9: the row list ends with exactly one of two mutually
exclusive four-row blocks selected by `buyout.enabled`: restitution
fees with zero option-fee/residual/resale rows when disabled; zero
restitution fees with the configured option fee, residual value and
negated resale (0 when absent) when enabled. -/
theorem C9_buyout_blocks :
    ∀ (config : Config) (rows : List (String × ℚ)),
      build_rows config = some rows →
      rows.length = 15 ∧
      (config.buyout.enabled.getD false = false →
        rows.drop 11 =
          [("Frais de restitution", config.deal.restitution_fees.getD 0),
           ("Frais d’option d’achat", 0),
           ("Valeur de rachat (VR)", 0),
           ("Revente (déduite)", 0)]) ∧
      (config.buyout.enabled.getD false = true →
        rows.drop 11 =
          [("Frais de restitution", 0),
           ("Frais d’option d’achat", config.buyout.option_fee.getD 0),
           ("Valeur de rachat (VR)", config.buyout.residual_value.getD 0),
           ("Revente (déduite)",
             match config.buyout.resale_value_after_buyout with
             | some resale => -resale
             | none => 0)]) := by
  intro config rows h
  obtain ⟨v, hv, rfl⟩ := Option.map_eq_some'.mp h
  refine ⟨?_, ?_, ?_⟩
  · simp only [scenario_rows]
    split_ifs <;> simp
  · intro hbo
    simp only [scenario_rows, hbo]
    rfl
  · intro hbo
    simp only [scenario_rows, hbo]
    rfl

/-- Witness for C9 at the buyout-enabled configuration `cfg9`. -/
theorem C9_buyout_blocks_witness :
    rows9.drop 11 =
      [("Frais de restitution", 0), ("Frais d’option d’achat", 500),
       ("Valeur de rachat (VR)", 9000), ("Revente (déduite)", -8000)] := by
  have h := (C9_buyout_blocks cfg9 rows9 build_rows_cfg9).2.2 rfl
  simpa [cfg9, emptyConfig, emptyBuyout] using h

/-- Claim C10: the charging-credits row equals `-abs(credits)` when the
configured `charging_credits_total` is nonzero and 0 otherwise, so it
is always non-positive, even for a negative input. -/
theorem C10_charging_credits :
    ∀ (config : Config) (rows : List (String × ℚ)),
      build_rows config = some rows →
      ∃ w : ℚ,
        rows[8]? = some ("Crédits recharge (déduits)", w) ∧
        w = (if config.deal.charging_credits_total.getD 0 ≠ 0 then
              -|config.deal.charging_credits_total.getD 0| else 0) ∧
        w ≤ 0 := by
  intro config rows h
  obtain ⟨v, hv, rfl⟩ := Option.map_eq_some'.mp h
  refine ⟨_, rfl, rfl, ?_⟩
  split_ifs with hc
  · exact neg_nonpos.mpr (abs_nonneg _)
  · exact le_refl 0

/-- Witness for C10 at the configuration `cfg10` (credits = -50): the
row value is `-abs(-50) = -50`, non-positive. -/
theorem C10_charging_credits_witness :
    rows10[8]? = some ("Crédits recharge (déduits)", (-50 : ℚ)) ∧ ((-50 : ℚ) ≤ 0) := by
  obtain ⟨w, h1, h2, h3⟩ := C10_charging_credits cfg10 rows10 build_rows_cfg10
  have hw : w = -50 := by
    rw [h2]
    norm_num [cfg10, emptyConfig, emptyDeal]
  exact ⟨hw ▸ h1, by norm_num⟩
